import Mathlib

/-!
# SimpleITK: image allocation and the extract filter

A shallow embedding of

* `Code/Common/src/sitkImageExplicit.cxx` (`Image::Allocate`, the two addressors), and
* `Code/BasicFilters/include/sitkExtractImageFilter.h` (members, setters, getters and the
  default arguments of `Extract`).

Code that these two files call but that lives in other headers (the member function
factory, `AllocateInternal`, the body of `ExtractImageFilter::Execute`, the image
accessors) is either taken as a parameter or modelled from the specification; every such
definition says so in its doc comment.
-/

namespace itk.simple

/-! ## Data model -/

/-- The C++ enumeration `PixelIDValueEnum`; its enumerators are plain integers. The
sentinel `sitkUnknown` is declared in a header outside the two source files and is a
parameter of every definition that uses it. -/
abbrev PixelIDValueEnum := Int

/-- Modelled from the spec: one element of a type catalog (`AllPixelIDTypeList`,
`NonLabelPixelIDTypeList`, whose declarations are missing), "pairing each supported
runtime value-type tag with the concrete type it represents". -/
structure PixelIDType where
  tag : PixelIDValueEnum
  concreteType : String
deriving DecidableEq, Repr

/-- The template argument `TImageType`: a concrete pixel type at a concrete dimension. -/
structure ImageType where
  pixelID : PixelIDType
  dimension : Nat
deriving DecidableEq, Repr

/-- Modelled from the spec: the representation an image owns through `m_PimpleImage`
(`PimpleImageBase` is declared outside the sources): a concrete image type, "sized
according to shape". -/
structure PimpleImageBase where
  imageType : ImageType
  size : List Nat
  numberOfComponents : Nat
deriving DecidableEq, Repr

/-- The state of an `Image`: it "owns exactly one underlying specialized representation at
a time". -/
structure Image where
  m_PimpleImage : PimpleImageBase
deriving DecidableEq, Repr

/-- Modelled from the spec: the accessor `GetValueTypeTag()` of the container (not among
the sources), the tag of the owned representation. -/
def Image.GetValueTypeTag (self : Image) : PixelIDValueEnum :=
  self.m_PimpleImage.imageType.pixelID.tag

/-- Modelled from the spec: the accessor `GetDimension()` of the container (not among the
sources), the dimension of the owned representation. -/
def Image.GetDimension (self : Image) : Nat :=
  self.m_PimpleImage.imageType.dimension

/-! ## `Image::Allocate` (sitkImageExplicit.cxx, lines 80-106) -/

/-- The exceptions that leave `Image::Allocate`, told apart by the place that throws.

* `unsupportedPixelType`: line 96, "Unable to construct image of unsupported pixel type";
* `unsupportedDimension size max`: line 101, "Unsupported number of dimensions specified
  by size: ..." with the size and `SITK_MAX_DIMENSION` in the message;
* `dispatched e`: anything thrown on line 105, by `GetMemberFunction` or by the member
  function it returned. -/
inductive AllocateException (ε : Type) where
  | unsupportedPixelType : AllocateException ε
  | unsupportedDimension (size : List Nat) (max : Nat) : AllocateException ε
  | dispatched (e : ε) : AllocateException ε
deriving DecidableEq, Repr

/-- A member function of `Image` bound to its object, as `GetMemberFunction` returns it:
called with the size and the number of components it yields the new state of the image and
either success or the exception it threw. -/
abbrev BoundAllocate (ε : Type) := List Nat → Nat → Image → Image × Except ε Unit

/-- The function `Image::Allocate`. The result is the state of `*this` when the call
ends, and whether it returned or threw.

`SITK_MAX_DIMENSION` and `sitkUnknown` are declared outside the sources and are
parameters. `GetMemberFunction` is `allocateMemberFactory.GetMemberFunction` after
`RegisterMemberFunctions<AllPixelIDTypeList, 2, SITK_MAX_DIMENSION, AllocateAddressor>()`
has run (lines 91-92); the factory is a local object, so building it leaves `*this` as it
was. -/
def Image.Allocate {ε : Type} (SITK_MAX_DIMENSION : Nat) (sitkUnknown : PixelIDValueEnum)
    (GetMemberFunction : PixelIDValueEnum → Nat → Except ε (BoundAllocate ε))
    (self : Image) (_size : List Nat) (ValueEnum : PixelIDValueEnum)
    (numberOfComponents : Nat) : Image × Except (AllocateException ε) Unit :=
  if ValueEnum = sitkUnknown then
    (self, .error .unsupportedPixelType)
  else if _size.length < 2 ∨ _size.length > SITK_MAX_DIMENSION then
    (self, .error (.unsupportedDimension _size SITK_MAX_DIMENSION))
  else
    match GetMemberFunction ValueEnum _size.length with
    | .error e => (self, .error (.dispatched e))
    | .ok f =>
      match f _size numberOfComponents self with
      | (self', .ok _) => (self', .ok ())
      | (self', .error e) => (self', .error (.dispatched e))

/-! ## `ExtractImageFilter` (sitkExtractImageFilter.h) -/

/-- The enumeration `DirectionCollapseToStrategyType` (line 83), spelled as in the header. -/
inductive DirectionCollapseToStrategyType where
  | DIRECTIONCOLLAPSETOUNKOWN
  | DIRECTIONCOLLAPSETOIDENTITY
  | DIRECTIONCOLLAPSETOSUBMATRIX
  | DIRECTIONCOLLAPSETOGUESS
deriving DecidableEq, Repr

open DirectionCollapseToStrategyType

/-- The parameter members of `ExtractImageFilter` (lines 132-139). `unsigned int` and
`int` entries are stored and returned but never computed with, so they are `Nat` and
`Int`. -/
structure ExtractImageFilter where
  m_Size : List Nat
  m_Index : List Int
  m_DirectionCollapseToStrategy : DirectionCollapseToStrategyType
  m_InPlace : Bool
deriving DecidableEq, Repr

/-- The default member initializers of lines 132-139: the state of a filter right after
construction. -/
def ExtractImageFilter.defaultMembers (SITK_MAX_DIMENSION : Nat) : ExtractImageFilter :=
  { m_Size := List.replicate SITK_MAX_DIMENSION 1
    m_Index := List.replicate 4 0
    m_DirectionCollapseToStrategy := DIRECTIONCOLLAPSETOGUESS
    m_InPlace := false }

/-- The member function `SetSize` (line 68). -/
def ExtractImageFilter.SetSize (self : ExtractImageFilter) (Size : List Nat) :
    ExtractImageFilter :=
  { self with m_Size := Size }

/-- The member function `GetSize` (line 72). -/
def ExtractImageFilter.GetSize (self : ExtractImageFilter) : List Nat := self.m_Size

/-- The member function `SetIndex` (line 77). -/
def ExtractImageFilter.SetIndex (self : ExtractImageFilter) (Index : List Int) :
    ExtractImageFilter :=
  { self with m_Index := Index }

/-- The member function `GetIndex` (line 81). -/
def ExtractImageFilter.GetIndex (self : ExtractImageFilter) : List Int := self.m_Index

/-- The member function `SetDirectionCollapseToStrategy` (line 94). -/
def ExtractImageFilter.SetDirectionCollapseToStrategy (self : ExtractImageFilter)
    (DirectionCollapseToStrategy : DirectionCollapseToStrategyType) : ExtractImageFilter :=
  { self with m_DirectionCollapseToStrategy := DirectionCollapseToStrategy }

/-- The member function `GetDirectionCollapseToStrategy` (line 99). -/
def ExtractImageFilter.GetDirectionCollapseToStrategy (self : ExtractImageFilter) :
    DirectionCollapseToStrategyType :=
  self.m_DirectionCollapseToStrategy

/-- The arguments of the procedural `Extract` (lines 152-154). -/
structure ExtractArguments where
  size : List Nat
  index : List Int
  directionCollapseToStrategy : DirectionCollapseToStrategyType
deriving DecidableEq, Repr

/-- The default arguments written in both declarations of `Extract` (lines 152 and 154). -/
def Extract.defaultArguments (SITK_MAX_DIMENSION : Nat) : ExtractArguments :=
  { size := List.replicate SITK_MAX_DIMENSION 1
    index := List.replicate 4 0
    directionCollapseToStrategy := DIRECTIONCOLLAPSETOGUESS }

/-! ## The member function factory (modelled from the specification, section 4.2) -/

/-- Modelled from the spec: the error taxonomy of section 7 (`sitkExceptionMacro` and the
exception class are declared outside the sources). `UnsupportedCombination` carries "both
the requested tag and dimension plus the supported maximum dimension". -/
inductive GenericException where
  | UnsupportedCombination (tag : PixelIDValueEnum) (dimension maxDimension : Nat)
  | UnsupportedDimension (dimension : Nat)
  | MissingStrategy
  | NonPositiveDefiniteSubmatrix
  | ShapeMismatch
deriving DecidableEq, Repr

/-- The key of a registry entry: "the pair (ValueTypeTag, Dimension)". -/
abbrev DispatchKey := PixelIDValueEnum × Nat

/-- Modelled from the spec: `detail::MemberFunctionFactory<TMemberFunctionPointer>`
(sitkMemberFunctionFactory.h is not among the sources), a "mapping from DispatchKey to
SpecializedEntry". `σ` is the type of the callable entries. -/
structure MemberFunctionFactory (σ : Type) where
  m_PFunction : List (DispatchKey × σ)

/-- A factory right after construction: nothing is registered. -/
def MemberFunctionFactory.empty {σ : Type} : MemberFunctionFactory σ := ⟨[]⟩

/-- Modelled from the spec: registration of one entry. The spec leaves open whether a
second registration of a key is rejected or ignored and asks for "no duplicate/overwritten
entries"; here it is ignored, so that there is "exactly one entry per registered key". -/
def MemberFunctionFactory.Register {σ : Type} (self : MemberFunctionFactory σ)
    (key : DispatchKey) (entry : σ) : MemberFunctionFactory σ :=
  match self.m_PFunction.lookup key with
  | some _ => self
  | none => ⟨self.m_PFunction ++ [(key, entry)]⟩

/-- Modelled from the spec: `RegisterMemberFunctions<Catalog, MinDim, MaxDim, Addressor>()`:
"for every type T in Catalog and every dimension D in [MinDim, MaxDim], invokes
Addressor::produce<T, D>(), computes the DispatchKey from T's associated ValueTypeTag and
D, and inserts (key → entry)". -/
def MemberFunctionFactory.RegisterMemberFunctions {σ : Type} (self : MemberFunctionFactory σ)
    (TPixelIDTypeList : List PixelIDType) (MinDim MaxDim : Nat)
    (Addressor : ImageType → σ) : MemberFunctionFactory σ :=
  TPixelIDTypeList.foldl
    (fun factory T =>
      (List.range' MinDim (MaxDim + 1 - MinDim)).foldl
        (fun factory D => factory.Register (T.tag, D) (Addressor ⟨T, D⟩)) factory)
    self

/-- Modelled from the spec: `GetMemberFunction(tag, dimension)`, the `Lookup` of section
4.2: the entry stored under the key, or the unsupported-combination error. -/
def MemberFunctionFactory.GetMemberFunction {σ : Type} (self : MemberFunctionFactory σ)
    (SITK_MAX_DIMENSION : Nat) (pixelID : PixelIDValueEnum) (imageDimension : Nat) :
    Except GenericException σ :=
  match self.m_PFunction.lookup (pixelID, imageDimension) with
  | some entry => .ok entry
  | none => .error (.UnsupportedCombination pixelID imageDimension SITK_MAX_DIMENSION)

/-! ## Addressors (sitkImageExplicit.cxx, lines 44-62) -/

/-- The call operator of `AllocateMemberFunctionAddressor` at `TImageType`: the address of
`Image::AllocateInternal<TImageType>`. The member template itself is a parameter. -/
def AllocateMemberFunctionAddressor {σ : Type} (AllocateInternal : ImageType → σ)
    (TImageType : ImageType) : σ :=
  AllocateInternal TImageType

/-- The call operator of `DispatchedInternalInitialiationAddressor` at `TImageType`: the address of
`Image::DispatchedInternalInitialization<TImageType>`. The member template itself is a
parameter. -/
def DispatchedInternalInitialiationAddressor {σ : Type}
    (DispatchedInternalInitialization : ImageType → σ) (TImageType : ImageType) : σ :=
  DispatchedInternalInitialization TImageType

/-- Modelled from the spec: `Image::AllocateInternal<TImageType>` (sitkImage.hxx is not
among the sources): "construct and own a representation of this concrete type/dimension,
sized according to shape"; the representation is "replaced wholesale". -/
def Image.AllocateInternal (TImageType : ImageType) : BoundAllocate GenericException :=
  fun _size numberOfComponents _ =>
    ({ m_PimpleImage :=
        { imageType := TImageType, size := _size, numberOfComponents := numberOfComponents } },
     .ok ())

/-- The factory that `Image::Allocate` builds on lines 91-92. -/
def Image.allocateMemberFactory (SITK_MAX_DIMENSION : Nat)
    (AllPixelIDTypeList : List PixelIDType) :
    MemberFunctionFactory (BoundAllocate GenericException) :=
  MemberFunctionFactory.empty.RegisterMemberFunctions AllPixelIDTypeList 2 SITK_MAX_DIMENSION
    (AllocateMemberFunctionAddressor Image.AllocateInternal)

/-! ## `ExtractImageFilter::Execute` (modelled from the specification, section 4.4) -/

/-- The function `Image::Allocate` run with the factory it builds on lines 91-92, the factory and
`AllocateInternal` being the ones modelled from the spec. -/
def Image.AllocateRegistered (SITK_MAX_DIMENSION : Nat) (sitkUnknown : PixelIDValueEnum)
    (AllPixelIDTypeList : List PixelIDType) (self : Image) (_size : List Nat)
    (ValueEnum : PixelIDValueEnum) (numberOfComponents : Nat) :
    Image × Except (AllocateException GenericException) Unit :=
  Image.Allocate SITK_MAX_DIMENSION sitkUnknown
    (fun pixelID imageDimension =>
      (Image.allocateMemberFactory SITK_MAX_DIMENSION AllPixelIDTypeList).GetMemberFunction
        SITK_MAX_DIMENSION pixelID imageDimension)
    self _size ValueEnum numberOfComponents

/-! ## Concrete values for the examples -/

/-- A catalog with two basic pixel types and one label type. -/
def exampleAllPixelIDTypeList : List PixelIDType :=
  [⟨1, "uint8"⟩, ⟨8, "float32"⟩, ⟨20, "label uint8"⟩]

/-- An image of a pixel type and a size, with one component. -/
def exampleImage (pixelID : PixelIDType) (size : List Nat) : Image :=
  { m_PimpleImage :=
      { imageType := ⟨pixelID, size.length⟩, size := size, numberOfComponents := 1 } }

/-- A factory lookup that always throws, over the exception type `String`. -/
def exampleFailingLookup : PixelIDValueEnum → Nat → Except String (BoundAllocate String) :=
  fun _ _ => .error "unsupported"

/-- Lookup in a concatenation: the first list wins. -/
theorem lookup_append_eq {α β : Type} [BEq α] (k : α) (l₁ l₂ : List (α × β)) :
    (l₁ ++ l₂).lookup k = (l₁.lookup k <|> l₂.lookup k) := by
  induction l₁ with
  | nil => simp
  | cons p l ih =>
    obtain ⟨a, b⟩ := p
    simp only [List.cons_append, List.lookup_cons]
    cases h : (k == a) <;> simp [ih]

/-- Lookup after one registration. -/
theorem lookup_Register {σ : Type} (f : MemberFunctionFactory σ) (key k : DispatchKey)
    (entry : σ) :
    (f.Register key entry).m_PFunction.lookup k
      = (f.m_PFunction.lookup k <|> if k = key then some entry else none) := by
  unfold MemberFunctionFactory.Register
  cases h : f.m_PFunction.lookup key with
  | some e =>
    by_cases hk : k = key
    · subst hk; simp [h]
    · simp [hk]
  | none =>
    simp only [lookup_append_eq]
    by_cases hk : k = key
    · subst hk; simp [List.lookup]
    · have : (k == key) = false := by simpa using hk
      simp [List.lookup, this, hk]

/-- Lookup after the registrations of one catalog type over a list of dimensions. -/
theorem lookup_foldl_Register {σ : Type} (T : PixelIDType) (Addressor : ImageType → σ)
    (dims : List Nat) (f : MemberFunctionFactory σ) (k : DispatchKey) :
    (dims.foldl (fun factory D => factory.Register (T.tag, D) (Addressor ⟨T, D⟩))
        f).m_PFunction.lookup k
      = (f.m_PFunction.lookup k
          <|> if T.tag = k.1 ∧ k.2 ∈ dims then some (Addressor ⟨T, k.2⟩) else none) := by
  induction dims generalizing f with
  | nil => simp
  | cons D dims ih =>
    rw [List.foldl_cons, ih, lookup_Register]
    obtain ⟨tag, d⟩ := k
    cases hf : f.m_PFunction.lookup (tag, d) with
    | some e => simp
    | none =>
      by_cases h1 : T.tag = tag
      · by_cases h2 : d = D
        · subst h1; subst h2; simp
        · subst h1
          simp [h2]
      · have h1' : ¬ ((tag, d) = (T.tag, D)) := by
          intro h; exact h1 (by simp [Prod.ext_iff] at h; exact h.1.symm)
        simp [h1, h1']

/-- Lookup after `RegisterMemberFunctions`: what was there before wins; otherwise, for a
dimension of the range, the entry of the first catalog type that carries the tag. -/
theorem lookup_RegisterMemberFunctions {σ : Type} (Addressor : ImageType → σ)
    (MinDim MaxDim : Nat) (catalog : List PixelIDType) (f : MemberFunctionFactory σ)
    (k : DispatchKey) :
    (f.RegisterMemberFunctions catalog MinDim MaxDim Addressor).m_PFunction.lookup k
      = (f.m_PFunction.lookup k
          <|> if MinDim ≤ k.2 ∧ k.2 ≤ MaxDim then
                (catalog.find? (fun T => decide (T.tag = k.1))).map
                  (fun T => Addressor ⟨T, k.2⟩)
              else none) := by
  unfold MemberFunctionFactory.RegisterMemberFunctions
  have hmem : k.2 ∈ List.range' MinDim (MaxDim + 1 - MinDim) ↔ MinDim ≤ k.2 ∧ k.2 ≤ MaxDim := by
    rw [List.mem_range'_1]; omega
  induction catalog generalizing f with
  | nil => simp
  | cons T catalog ih =>
    rw [List.foldl_cons, ih, lookup_foldl_Register]
    cases hf : f.m_PFunction.lookup k with
    | some e => simp
    | none =>
      by_cases hr : MinDim ≤ k.2 ∧ k.2 ≤ MaxDim
      · by_cases ht : T.tag = k.1
        · simp [hmem, hr, ht, List.find?_cons]
        · simp [hmem, hr, ht, List.find?_cons]
      · simp [hmem, hr]

/-- The closed form of `GetMemberFunction` on a freshly registered factory. -/
theorem GetMemberFunction_registered {σ : Type} (Addressor : ImageType → σ)
    (SITK_MAX_DIMENSION MinDim MaxDim : Nat) (catalog : List PixelIDType)
    (tag : PixelIDValueEnum) (d : Nat) :
    (MemberFunctionFactory.empty.RegisterMemberFunctions catalog MinDim MaxDim
        Addressor).GetMemberFunction SITK_MAX_DIMENSION tag d
      = if MinDim ≤ d ∧ d ≤ MaxDim then
          match catalog.find? (fun T => decide (T.tag = tag)) with
          | some T => .ok (Addressor ⟨T, d⟩)
          | none => .error (.UnsupportedCombination tag d SITK_MAX_DIMENSION)
        else .error (.UnsupportedCombination tag d SITK_MAX_DIMENSION) := by
  unfold MemberFunctionFactory.GetMemberFunction
  rw [lookup_RegisterMemberFunctions]
  by_cases hr : MinDim ≤ d ∧ d ≤ MaxDim
  · cases hfind : catalog.find? (fun T => decide (T.tag = tag)) <;>
      simp [MemberFunctionFactory.empty, hr, hfind]
  · simp [MemberFunctionFactory.empty, hr]

/-- A tag of the catalog is found, at a type of the catalog that carries it. -/
theorem find_tag_of_mem (catalog : List PixelIDType) (tag : PixelIDValueEnum)
    (h : tag ∈ catalog.map PixelIDType.tag) :
    ∃ T, T ∈ catalog ∧ T.tag = tag
      ∧ catalog.find? (fun T => decide (T.tag = tag)) = some T := by
  cases hfind : catalog.find? (fun T => decide (T.tag = tag)) with
  | none =>
    rw [List.find?_eq_none] at hfind
    obtain ⟨T, hT, rfl⟩ := List.mem_map.mp h
    exact absurd (by simp) (hfind T hT)
  | some T =>
    exact ⟨T, List.mem_of_find?_eq_some hfind, by simpa using List.find?_some hfind, rfl⟩

/-- A tag outside the catalog is not found. -/
theorem find_tag_of_not_mem (catalog : List PixelIDType) (tag : PixelIDValueEnum)
    (h : tag ∉ catalog.map PixelIDType.tag) :
    catalog.find? (fun T => decide (T.tag = tag)) = none := by
  rw [List.find?_eq_none]
  intro T hT hdec
  exact h (List.mem_map.mpr ⟨T, hT, by simpa using hdec⟩)

/-! ## Lemmas on the extract filter -/

/-- C1: `Image::Allocate` rejects the unknown pixel type. For every factory lookup, image,
shape (of any length) and component count, `Allocate(shape, sitkUnknown, components)`
throws the "Unable to construct image of unsupported pixel type" exception and leaves the
image as it was: the result does not depend on the factory, so the dispatched allocation
is not reached, and the pixel-type error wins over the dimension error. -/
theorem Allocate_unknown_pixel_type {ε : Type} (SITK_MAX_DIMENSION : Nat)
    (sitkUnknown : PixelIDValueEnum)
    (GetMemberFunction : PixelIDValueEnum → Nat → Except ε (BoundAllocate ε))
    (self : Image) (_size : List Nat) (numberOfComponents : Nat) :
    Image.Allocate SITK_MAX_DIMENSION sitkUnknown GetMemberFunction self _size sitkUnknown
        numberOfComponents
      = (self, .error .unsupportedPixelType) := by
  simp [Image.Allocate]

/-- C2: `Image::Allocate` rejects out-of-range dimensions. For a pixel type other than
`sitkUnknown`: when the shape has fewer than 2 or more than `SITK_MAX_DIMENSION` entries,
`Allocate` throws the unsupported-dimension exception whatever the factory is (so before
any dispatch); and whenever `Allocate` throws an unsupported-dimension exception, the
length of the shape is outside `[2, SITK_MAX_DIMENSION]`. -/
theorem Allocate_dimension_error {ε : Type} (SITK_MAX_DIMENSION : Nat)
    (sitkUnknown : PixelIDValueEnum)
    (GetMemberFunction : PixelIDValueEnum → Nat → Except ε (BoundAllocate ε))
    (self : Image) (_size : List Nat) (ValueEnum : PixelIDValueEnum)
    (numberOfComponents : Nat) (hValue : ValueEnum ≠ sitkUnknown) :
    ((_size.length < 2 ∨ _size.length > SITK_MAX_DIMENSION) →
        Image.Allocate SITK_MAX_DIMENSION sitkUnknown GetMemberFunction self _size ValueEnum
            numberOfComponents
          = (self, .error (.unsupportedDimension _size SITK_MAX_DIMENSION)))
    ∧ (∀ size max,
        (Image.Allocate SITK_MAX_DIMENSION sitkUnknown GetMemberFunction self _size ValueEnum
            numberOfComponents).2 = .error (.unsupportedDimension size max) →
          _size.length < 2 ∨ _size.length > SITK_MAX_DIMENSION) := by
  constructor
  · intro h
    simp [Image.Allocate, hValue, h]
  · intro size max h
    by_contra hr
    simp only [Image.Allocate, if_neg hValue, if_neg hr] at h
    cases hG : GetMemberFunction ValueEnum _size.length with
    | error e => simp [hG] at h
    | ok f =>
      simp only [hG] at h
      cases hf : f _size numberOfComponents self with
      | mk img r =>
        cases r with
        | error e => simp [hf] at h
        | ok u => simp [hf] at h

/-- The witness of C2: a one-entry shape with pixel type 1, the sentinel being -1. -/
theorem Allocate_dimension_error_witness :
    Image.Allocate 5 (-1) exampleFailingLookup (exampleImage ⟨1, "uint8"⟩ [2, 2]) [7] 1 0
      = (exampleImage ⟨1, "uint8"⟩ [2, 2], .error (.unsupportedDimension [7] 5)) :=
  (Allocate_dimension_error 5 (-1) exampleFailingLookup (exampleImage ⟨1, "uint8"⟩ [2, 2])
    [7] 1 0 (by decide)).1 (by decide)

/-- C9: `Image::Allocate` is atomic on validation failure. When the pixel type is
`sitkUnknown` or the length of the shape is outside `[2, SITK_MAX_DIMENSION]`, the call
throws one of the two validation exceptions and the image it ends with is the image it
started with, so the reported pixel type and dimension are unchanged. -/
theorem Allocate_validation_failure_keeps_image {ε : Type} (SITK_MAX_DIMENSION : Nat)
    (sitkUnknown : PixelIDValueEnum)
    (GetMemberFunction : PixelIDValueEnum → Nat → Except ε (BoundAllocate ε))
    (self : Image) (_size : List Nat) (ValueEnum : PixelIDValueEnum)
    (numberOfComponents : Nat)
    (h : ValueEnum = sitkUnknown ∨ _size.length < 2 ∨ _size.length > SITK_MAX_DIMENSION) :
    (Image.Allocate SITK_MAX_DIMENSION sitkUnknown GetMemberFunction self _size ValueEnum
        numberOfComponents).1 = self
    ∧ (Image.Allocate SITK_MAX_DIMENSION sitkUnknown GetMemberFunction self _size ValueEnum
        numberOfComponents).1.GetValueTypeTag = self.GetValueTypeTag
    ∧ (Image.Allocate SITK_MAX_DIMENSION sitkUnknown GetMemberFunction self _size ValueEnum
        numberOfComponents).1.GetDimension = self.GetDimension
    ∧ ((Image.Allocate SITK_MAX_DIMENSION sitkUnknown GetMemberFunction self _size ValueEnum
          numberOfComponents).2 = .error .unsupportedPixelType
        ∨ (Image.Allocate SITK_MAX_DIMENSION sitkUnknown GetMemberFunction self _size
            ValueEnum numberOfComponents).2
          = .error (.unsupportedDimension _size SITK_MAX_DIMENSION)) := by
  by_cases hValue : ValueEnum = sitkUnknown
  · simp [Image.Allocate, hValue]
  · have hr : _size.length < 2 ∨ _size.length > SITK_MAX_DIMENSION := by
      rcases h with h | h
      · exact absurd h hValue
      · exact h
    simp [Image.Allocate, hValue, hr]

/-- The witness of C9: a six-entry shape when the maximum dimension is 5. -/
theorem Allocate_validation_failure_keeps_image_witness :
    (Image.Allocate 5 (-1) exampleFailingLookup (exampleImage ⟨8, "float32"⟩ [3, 4])
        [1, 1, 1, 1, 1, 1] 8 1).1 = exampleImage ⟨8, "float32"⟩ [3, 4] :=
  (Allocate_validation_failure_keeps_image 5 (-1) exampleFailingLookup
    (exampleImage ⟨8, "float32"⟩ [3, 4]) [1, 1, 1, 1, 1, 1] 8 1
    (Or.inr (Or.inr (by decide)))).1

/-- C3: allocation round trip. For a tag of the catalog and a shape whose length is in
`[2, SITK_MAX_DIMENSION]`, with any component count: when `Allocate` returns, the image
reports the requested tag and the length of the shape as its dimension; and it does
return when the tag is not `sitkUnknown`. -/
theorem Allocate_round_trip (SITK_MAX_DIMENSION : Nat) (sitkUnknown : PixelIDValueEnum)
    (AllPixelIDTypeList : List PixelIDType) (self : Image) (_size : List Nat)
    (ValueEnum : PixelIDValueEnum) (numberOfComponents : Nat)
    (hTag : ValueEnum ∈ AllPixelIDTypeList.map PixelIDType.tag)
    (hMin : 2 ≤ _size.length) (hMax : _size.length ≤ SITK_MAX_DIMENSION) :
    ((Image.AllocateRegistered SITK_MAX_DIMENSION sitkUnknown AllPixelIDTypeList self _size
          ValueEnum numberOfComponents).2 = .ok () →
        (Image.AllocateRegistered SITK_MAX_DIMENSION sitkUnknown AllPixelIDTypeList self
            _size ValueEnum numberOfComponents).1.GetValueTypeTag = ValueEnum
        ∧ (Image.AllocateRegistered SITK_MAX_DIMENSION sitkUnknown AllPixelIDTypeList self
            _size ValueEnum numberOfComponents).1.GetDimension = _size.length)
    ∧ (ValueEnum ≠ sitkUnknown →
        (Image.AllocateRegistered SITK_MAX_DIMENSION sitkUnknown AllPixelIDTypeList self
          _size ValueEnum numberOfComponents).2 = .ok ()) := by
  obtain ⟨T, _, hT, hfind⟩ := find_tag_of_mem AllPixelIDTypeList ValueEnum hTag
  have hr : ¬ (_size.length < 2 ∨ _size.length > SITK_MAX_DIMENSION) := by omega
  have hlook :
      (Image.allocateMemberFactory SITK_MAX_DIMENSION AllPixelIDTypeList).GetMemberFunction
          SITK_MAX_DIMENSION ValueEnum _size.length
        = .ok (Image.AllocateInternal ⟨T, _size.length⟩) := by
    unfold Image.allocateMemberFactory
    rw [GetMemberFunction_registered, if_pos ⟨hMin, hMax⟩, hfind]
    rfl
  by_cases hValue : ValueEnum = sitkUnknown
  · constructor
    · intro h
      simp [Image.AllocateRegistered, Image.Allocate, hValue] at h
    · intro h
      exact absurd hValue h
  · have hrun :
        Image.AllocateRegistered SITK_MAX_DIMENSION sitkUnknown AllPixelIDTypeList self _size
            ValueEnum numberOfComponents
          = ({ m_PimpleImage :=
                { imageType := ⟨T, _size.length⟩, size := _size,
                  numberOfComponents := numberOfComponents } }, .ok ()) := by
      simp only [Image.AllocateRegistered, Image.Allocate, if_neg hValue, if_neg hr, hlook]
      rfl
    rw [hrun]
    exact ⟨fun _ => ⟨hT, rfl⟩, fun _ => rfl⟩

/-- The witness of C3: a 3-dimensional image of the float type of the example catalog
reports the tag 8 and the dimension 3. -/
theorem Allocate_round_trip_witness :
    (Image.AllocateRegistered 5 (-1) exampleAllPixelIDTypeList
        (exampleImage ⟨1, "uint8"⟩ [2, 2]) [4, 5, 6] 8 1).1.GetValueTypeTag = 8
    ∧ (Image.AllocateRegistered 5 (-1) exampleAllPixelIDTypeList
        (exampleImage ⟨1, "uint8"⟩ [2, 2]) [4, 5, 6] 8 1).1.GetDimension = [4, 5, 6].length :=
  (Allocate_round_trip 5 (-1) exampleAllPixelIDTypeList (exampleImage ⟨1, "uint8"⟩ [2, 2])
    [4, 5, 6] 8 1 (by decide) (by decide) (by decide)).1
    ((Allocate_round_trip 5 (-1) exampleAllPixelIDTypeList (exampleImage ⟨1, "uint8"⟩ [2, 2])
      [4, 5, 6] 8 1 (by decide) (by decide) (by decide)).2 (by decide))

/-! ## The registry -/

/-- C4: registry coverage. In the factory built by
`RegisterMemberFunctions<Catalog, 2, SITK_MAX_DIMENSION, Addressor>`, for any addressor:
`GetMemberFunction(tag, dimension)` returns an entry, namely the one the addressor produced
for a catalog type with that tag at that dimension, when the tag is in the catalog and the
dimension is in `[2, SITK_MAX_DIMENSION]`; for every other pair it fails with the
unsupported-combination error. An entry is the callable itself, so there is no null
entry. -/
theorem GetMemberFunction_coverage {σ : Type} (Addressor : ImageType → σ)
    (SITK_MAX_DIMENSION : Nat) (catalog : List PixelIDType) (tag : PixelIDValueEnum)
    (dimension : Nat) :
    ((tag ∈ catalog.map PixelIDType.tag ∧ 2 ≤ dimension ∧ dimension ≤ SITK_MAX_DIMENSION) →
        ∃ T, T ∈ catalog ∧ T.tag = tag
          ∧ (MemberFunctionFactory.empty.RegisterMemberFunctions catalog 2 SITK_MAX_DIMENSION
                Addressor).GetMemberFunction SITK_MAX_DIMENSION tag dimension
              = .ok (Addressor ⟨T, dimension⟩))
    ∧ (¬ (tag ∈ catalog.map PixelIDType.tag ∧ 2 ≤ dimension
            ∧ dimension ≤ SITK_MAX_DIMENSION) →
        (MemberFunctionFactory.empty.RegisterMemberFunctions catalog 2 SITK_MAX_DIMENSION
            Addressor).GetMemberFunction SITK_MAX_DIMENSION tag dimension
          = .error (.UnsupportedCombination tag dimension SITK_MAX_DIMENSION)) := by
  rw [GetMemberFunction_registered]
  constructor
  · rintro ⟨hTag, hMin, hMax⟩
    obtain ⟨T, hmem, hT, hfind⟩ := find_tag_of_mem catalog tag hTag
    exact ⟨T, hmem, hT, by rw [if_pos ⟨hMin, hMax⟩, hfind]⟩
  · intro h
    by_cases hr : 2 ≤ dimension ∧ dimension ≤ SITK_MAX_DIMENSION
    · have hTag : tag ∉ catalog.map PixelIDType.tag := fun hTag => h ⟨hTag, hr⟩
      rw [if_pos hr, find_tag_of_not_mem catalog tag hTag]
    · rw [if_neg hr]

/-- The witness of C4: the allocation factory of the example catalog, asked for the label
type at dimension 6 when the maximum is 5. -/
theorem GetMemberFunction_coverage_witness :
    (Image.allocateMemberFactory 5 exampleAllPixelIDTypeList).GetMemberFunction 5 20 6
      = .error (.UnsupportedCombination 20 6 5) :=
  (GetMemberFunction_coverage (AllocateMemberFunctionAddressor Image.AllocateInternal) 5
    exampleAllPixelIDTypeList 20 6).2 (by decide)

/-! ## `ExtractImageFilter`: members and setters -/

/-- C5: the strategy of a newly constructed `ExtractImageFilter`, and the default
strategy argument of the procedural `Extract`, is `DIRECTIONCOLLAPSETOGUESS`, which is not
`DIRECTIONCOLLAPSETOUNKOWN`. -/
theorem defaultMembers_strategy (SITK_MAX_DIMENSION : Nat) :
    (ExtractImageFilter.defaultMembers SITK_MAX_DIMENSION).GetDirectionCollapseToStrategy
        = DIRECTIONCOLLAPSETOGUESS
    ∧ (Extract.defaultArguments SITK_MAX_DIMENSION).directionCollapseToStrategy
        = DIRECTIONCOLLAPSETOGUESS
    ∧ (ExtractImageFilter.defaultMembers SITK_MAX_DIMENSION).GetDirectionCollapseToStrategy
        ≠ DIRECTIONCOLLAPSETOUNKOWN := by
  refine ⟨rfl, rfl, ?_⟩
  simp [ExtractImageFilter.defaultMembers, ExtractImageFilter.GetDirectionCollapseToStrategy]

/-- C6: `SetDirectionCollapseToStrategy(DIRECTIONCOLLAPSETOUNKOWN)` on a newly constructed
filter, whose strategy is not Unknown, leaves the filter with the strategy Unknown. -/
theorem SetDirectionCollapseToStrategy_reaches_unknown (SITK_MAX_DIMENSION : Nat) :
    (ExtractImageFilter.defaultMembers SITK_MAX_DIMENSION).GetDirectionCollapseToStrategy
        ≠ DIRECTIONCOLLAPSETOUNKOWN
    ∧ ((ExtractImageFilter.defaultMembers SITK_MAX_DIMENSION).SetDirectionCollapseToStrategy
          DIRECTIONCOLLAPSETOUNKOWN).GetDirectionCollapseToStrategy
        = DIRECTIONCOLLAPSETOUNKOWN := by
  refine ⟨?_, rfl⟩
  simp [ExtractImageFilter.defaultMembers, ExtractImageFilter.GetDirectionCollapseToStrategy]

/-- C10: the three parameter setters are independent. `SetSize(s)` makes `GetSize()`
return `s` and leaves the index and the strategy as they were; `SetIndex(i)` makes
`GetIndex()` return `i` and leaves the size and the strategy; and
`SetDirectionCollapseToStrategy(d)` makes `GetDirectionCollapseToStrategy()` return `d`
and leaves the size and the index. -/
theorem setters_independent (self : ExtractImageFilter) (s : List Nat) (i : List Int)
    (d : DirectionCollapseToStrategyType) :
    ((self.SetSize s).GetSize = s
      ∧ (self.SetSize s).GetIndex = self.GetIndex
      ∧ (self.SetSize s).GetDirectionCollapseToStrategy = self.GetDirectionCollapseToStrategy)
    ∧ ((self.SetIndex i).GetIndex = i
      ∧ (self.SetIndex i).GetSize = self.GetSize
      ∧ (self.SetIndex i).GetDirectionCollapseToStrategy
          = self.GetDirectionCollapseToStrategy)
    ∧ ((self.SetDirectionCollapseToStrategy d).GetDirectionCollapseToStrategy = d
      ∧ (self.SetDirectionCollapseToStrategy d).GetSize = self.GetSize
      ∧ (self.SetDirectionCollapseToStrategy d).GetIndex = self.GetIndex) :=
  ⟨⟨rfl, rfl, rfl⟩, ⟨rfl, rfl, rfl⟩, ⟨rfl, rfl, rfl⟩⟩

/-! ## `ExtractImageFilter::Execute` -/

end itk.simple
